import Mathlib

/-
Shallow embedding of the ARL-Net configuration module (config/__init__.py).

Python floats are modelled as rationals (the module only compares decimal
literals, never performs float arithmetic, so ordering of the decimal
values is preserved exactly); Python ints as integers.  The process
environment is a partial map from variable names to values, and the
filesystem is abstracted to its existence predicate on paths, which is
all `os.path.exists` observes.  A `validate` method either returns
silently (`Except.ok ()`) or raises an error (`Except.error e`), where
the error carries its Python class and message.
-/

/-- A Python exception raised by a validate method: either `ValueError`
or `FileNotFoundError`, each with its message string. -/
inductive ConfigError where
  | valueError (msg : String)
  | fileNotFound (msg : String)
  deriving DecidableEq, Repr

/-- The process environment: maps a variable name to its value when set. -/
def Env : Type := String → Option String

/-- `os.getenv(name, fallback)`: the variable's value when set, else the fallback. -/
def getenv (env : Env) (name fallback : String) : String :=
  (env name).getD fallback

/-- The empty environment: no variable is set. -/
def emptyEnv : Env := fun _ => none

/-- The environment in which exactly one variable `name` is set, to `v`. -/
def envWith (name v : String) : Env :=
  fun k => if k = name then some v else none

/-- `FirebaseConfig`: Firebase configuration with validation. -/
structure FirebaseConfig where
  project_id : String
  credential_path : String
  database_url : String
  collection_prefix : String
  deriving DecidableEq, Repr

/-- Construction of a `FirebaseConfig` dataclass instance with no keyword
arguments: each default factory reads the environment, except the literal
`collection_prefix`. -/
def mkFirebaseConfig (env : Env) : FirebaseConfig :=
  { project_id := getenv env "FIREBASE_PROJECT_ID" "arl-net-default"
    credential_path := getenv env "FIREBASE_CREDENTIAL_PATH" "./config/firebase_credentials.json"
    database_url := getenv env "FIREBASE_DATABASE_URL" ""
    collection_prefix := "arl_net_" }

/-- `FirebaseConfig.validate(self)`, with the filesystem abstracted as the
existence predicate `fs` on paths (`os.path.exists`).  An empty string is
falsy in Python, so `if not self.project_id` fires exactly on `""`. -/
def FirebaseConfig.validate (fs : String → Bool) (c : FirebaseConfig) :
    Except ConfigError Unit :=
  if c.project_id = "" then
    .error (.valueError "Firebase project_id must be configured")
  else if fs c.credential_path = false then
    .error (.fileNotFound ("Firebase credentials not found at: " ++ c.credential_path))
  else
    .ok ()

/-- `TradingConfig`: trading-specific configuration.  Field defaults are the
literal defaults of the dataclass (no environment access). -/
structure TradingConfig where
  initial_balance : ℚ := 10000.0
  max_position_size : ℚ := 0.1
  transaction_cost : ℚ := 0.001
  risk_free_rate : ℚ := 0.02
  max_drawdown : ℚ := 0.20
  stop_loss_pct : ℚ := 0.05
  take_profit_pct : ℚ := 0.10
  deriving DecidableEq, Repr

/-- Construction of a `TradingConfig` with no keyword arguments: every
default is a literal, so the environment is never consulted. -/
def mkTradingConfig (_env : Env) : TradingConfig := {}

/-- `TradingConfig.validate(self)`. -/
def TradingConfig.validate (c : TradingConfig) : Except ConfigError Unit :=
  if c.initial_balance ≤ 0 then
    .error (.valueError "Initial balance must be positive")
  else if ¬ (0 ≤ c.max_position_size ∧ c.max_position_size ≤ 1) then
    .error (.valueError "Max position size must be between 0 and 1")
  else if c.transaction_cost < 0 then
    .error (.valueError "Transaction cost cannot be negative")
  else
    .ok ()

/-- `RLConfig`: reinforcement-learning configuration, with its literal
dataclass defaults. -/
structure RLConfig where
  gamma : ℚ := 0.99
  learning_rate : ℚ := 0.001
  buffer_size : ℤ := 10000
  batch_size : ℤ := 64
  tau : ℚ := 0.005
  ppo_epochs : ℤ := 10
  clip_epsilon : ℚ := 0.2
  entropy_coef : ℚ := 0.01
  deriving DecidableEq, Repr

/-- Construction of an `RLConfig` with no keyword arguments: every default
is a literal, so the environment is never consulted. -/
def mkRLConfig (_env : Env) : RLConfig := {}

/-- `RLConfig.validate(self)`. -/
def RLConfig.validate (c : RLConfig) : Except ConfigError Unit :=
  if ¬ (0 ≤ c.gamma ∧ c.gamma ≤ 1) then
    .error (.valueError "Gamma must be between 0 and 1")
  else if c.learning_rate ≤ 0 then
    .error (.valueError "Learning rate must be positive")
  else if c.buffer_size ≤ 0 then
    .error (.valueError "Buffer size must be positive")
  else
    .ok ()

/-- State-passing form of `FirebaseConfig.validate`: each exit of the
method is paired with the state of `self` at that exit.  The method body
contains no assignment to `self`, so every exit carries `c` itself. -/
def FirebaseConfig.validateSt (fs : String → Bool) (c : FirebaseConfig) :
    Except ConfigError Unit × FirebaseConfig :=
  if c.project_id = "" then
    (.error (.valueError "Firebase project_id must be configured"), c)
  else if fs c.credential_path = false then
    (.error (.fileNotFound ("Firebase credentials not found at: " ++ c.credential_path)), c)
  else
    (.ok (), c)

/-- State-passing form of `TradingConfig.validate`. -/
def TradingConfig.validateSt (c : TradingConfig) :
    Except ConfigError Unit × TradingConfig :=
  if c.initial_balance ≤ 0 then
    (.error (.valueError "Initial balance must be positive"), c)
  else if ¬ (0 ≤ c.max_position_size ∧ c.max_position_size ≤ 1) then
    (.error (.valueError "Max position size must be between 0 and 1"), c)
  else if c.transaction_cost < 0 then
    (.error (.valueError "Transaction cost cannot be negative"), c)
  else
    (.ok (), c)

/-- State-passing form of `RLConfig.validate`. -/
def RLConfig.validateSt (c : RLConfig) :
    Except ConfigError Unit × RLConfig :=
  if ¬ (0 ≤ c.gamma ∧ c.gamma ≤ 1) then
    (.error (.valueError "Gamma must be between 0 and 1"), c)
  else if c.learning_rate ≤ 0 then
    (.error (.valueError "Learning rate must be positive"), c)
  else if c.buffer_size ≤ 0 then
    (.error (.valueError "Buffer size must be positive"), c)
  else
    (.ok (), c)

/-- C4: with no environment variable set, constructing each configuration
group yields exactly the documented literal defaults. -/
theorem defaults_from_empty_env_C4 :
    mkFirebaseConfig emptyEnv =
      { project_id := "arl-net-default"
        credential_path := "./config/firebase_credentials.json"
        database_url := ""
        collection_prefix := "arl_net_" }
  ∧ mkTradingConfig emptyEnv =
      { initial_balance := 10000.0, max_position_size := 0.1, transaction_cost := 0.001,
        risk_free_rate := 0.02, max_drawdown := 0.20, stop_loss_pct := 0.05,
        take_profit_pct := 0.10 }
  ∧ mkRLConfig emptyEnv =
      { gamma := 0.99, learning_rate := 0.001, buffer_size := 10000, batch_size := 64,
        tau := 0.005, ppo_epochs := 10, clip_epsilon := 0.2, entropy_coef := 0.01 } :=
  ⟨rfl, rfl, rfl⟩

/-- C5: a `TradingConfig` with `initial_balance = 0` and all other fields at
their defaults fails validation with the initial-balance error, and one with
`initial_balance = 1` passes. -/
theorem trading_balance_boundary_C5 :
    TradingConfig.validate { initial_balance := 0 } =
      .error (.valueError "Initial balance must be positive")
  ∧ TradingConfig.validate { initial_balance := 1 } = .ok () := by
  constructor <;> norm_num [TradingConfig.validate]

/-- C6: an `RLConfig` with `gamma = 1.5` and all other fields at their
defaults fails validation with the gamma error, and one with `gamma = 1.0`
passes. -/
theorem rl_gamma_boundary_C6 :
    RLConfig.validate { gamma := 1.5 } =
      .error (.valueError "Gamma must be between 0 and 1")
  ∧ RLConfig.validate { gamma := 1.0 } = .ok () := by
  constructor <;> norm_num [RLConfig.validate]

/-- C1: with all other fields at their defaults, `TradingConfig.validate`
accepts `max_position_size` exactly on the closed interval `[0, 1]` and
`RLConfig.validate` accepts `gamma` exactly on `[0, 1]`; outside the
interval each raises an error. -/
theorem range_checks_C1 (v : ℚ) :
    (TradingConfig.validate { max_position_size := v } = .ok () ↔ 0 ≤ v ∧ v ≤ 1)
  ∧ ((∃ e, TradingConfig.validate { max_position_size := v } = .error e) ↔ ¬ (0 ≤ v ∧ v ≤ 1))
  ∧ (RLConfig.validate { gamma := v } = .ok () ↔ 0 ≤ v ∧ v ≤ 1)
  ∧ ((∃ e, RLConfig.validate { gamma := v } = .error e) ↔ ¬ (0 ≤ v ∧ v ≤ 1)) := by
  by_cases h : 0 ≤ v ∧ v ≤ 1 <;>
    simp only [TradingConfig.validate, RLConfig.validate] <;>
    norm_num [h] <;>
    first
      | exact fun x hx => Except.noConfusion hx
      | exact ⟨fun hx => Except.noConfusion hx, fun hx => Except.noConfusion hx⟩

/-- Concrete instantiation of `range_checks_C1` at the boundary value 1. -/
theorem range_checks_C1_witness :
    TradingConfig.validate { max_position_size := 1 } = .ok () :=
  (range_checks_C1 1).1.mpr (by norm_num)

/-- C2: for a `FirebaseConfig` with non-empty `project_id`, `validate`
succeeds when the credential path exists and raises the file-not-found
error (naming the path) when it does not. -/
theorem firebase_path_check_C2 (fs : String → Bool) (c : FirebaseConfig)
    (h : c.project_id ≠ "") :
    (fs c.credential_path = true → FirebaseConfig.validate fs c = .ok ())
  ∧ (fs c.credential_path = false →
      FirebaseConfig.validate fs c =
        .error (.fileNotFound ("Firebase credentials not found at: " ++ c.credential_path))) := by
  unfold FirebaseConfig.validate
  constructor <;> intro hp <;> simp [h, hp]

/-- Concrete instantiation of `firebase_path_check_C2`: the default config
under a filesystem where every path exists. -/
theorem firebase_path_check_C2_witness :
    FirebaseConfig.validate (fun _ => true) (mkFirebaseConfig emptyEnv) = .ok () :=
  (firebase_path_check_C2 (fun _ => true) (mkFirebaseConfig emptyEnv) (by decide)).1 rfl

/-- C3 as stated is false: `collection_prefix` is a configuration field of
`FirebaseConfig`, but no environment variable can set it — it is always the
literal `"arl_net_"`. -/
theorem env_override_C3_counterexample :
    ¬ ∃ name : String, ∀ v : String,
      FirebaseConfig.collection_prefix (mkFirebaseConfig (envWith name v)) = v := by
  rintro ⟨name, h⟩
  have ha := h "a"
  have hb := h "b"
  exact absurd (ha.symm.trans hb) (by decide)

/-- C3 amended: exactly the three env-backed fields of `FirebaseConfig`
(`project_id` via FIREBASE_PROJECT_ID, `credential_path` via
FIREBASE_CREDENTIAL_PATH, `database_url` via FIREBASE_DATABASE_URL) are
overridden by their variable, each override changing only its own field;
`collection_prefix` stays literal, and `TradingConfig` and `RLConfig` never
read the environment at all. -/
theorem env_override_C3_amended (v : String) :
    (mkFirebaseConfig (envWith "FIREBASE_PROJECT_ID" v)).project_id = v
  ∧ (mkFirebaseConfig (envWith "FIREBASE_PROJECT_ID" v)).credential_path
      = "./config/firebase_credentials.json"
  ∧ (mkFirebaseConfig (envWith "FIREBASE_PROJECT_ID" v)).database_url = ""
  ∧ FirebaseConfig.collection_prefix (mkFirebaseConfig (envWith "FIREBASE_PROJECT_ID" v))
      = "arl_net_"
  ∧ (mkFirebaseConfig (envWith "FIREBASE_CREDENTIAL_PATH" v)).credential_path = v
  ∧ (mkFirebaseConfig (envWith "FIREBASE_CREDENTIAL_PATH" v)).project_id = "arl-net-default"
  ∧ (mkFirebaseConfig (envWith "FIREBASE_CREDENTIAL_PATH" v)).database_url = ""
  ∧ FirebaseConfig.collection_prefix (mkFirebaseConfig (envWith "FIREBASE_CREDENTIAL_PATH" v))
      = "arl_net_"
  ∧ (mkFirebaseConfig (envWith "FIREBASE_DATABASE_URL" v)).database_url = v
  ∧ (mkFirebaseConfig (envWith "FIREBASE_DATABASE_URL" v)).project_id = "arl-net-default"
  ∧ (mkFirebaseConfig (envWith "FIREBASE_DATABASE_URL" v)).credential_path
      = "./config/firebase_credentials.json"
  ∧ FirebaseConfig.collection_prefix (mkFirebaseConfig (envWith "FIREBASE_DATABASE_URL" v))
      = "arl_net_"
  ∧ (∀ env : Env, mkTradingConfig env = mkTradingConfig emptyEnv)
  ∧ (∀ env : Env, mkRLConfig env = mkRLConfig emptyEnv) := by
  refine ⟨?_, ?_, ?_, ?_, ?_, ?_, ?_, ?_, ?_, ?_, ?_, ?_, fun _ => rfl, fun _ => rfl⟩ <;>
    simp [mkFirebaseConfig, getenv, envWith]

/-- Concrete instantiation of `env_override_C3_amended`. -/
theorem env_override_C3_amended_witness :
    (mkFirebaseConfig (envWith "FIREBASE_PROJECT_ID" "my-project")).project_id = "my-project" :=
  (env_override_C3_amended "my-project").1

/-- C7: each group's `validate` returns silently exactly when every checked
constraint holds; any raised error is one of the fixed messages naming the
violated field and constraint; and each message is raised exactly when its
own constraint is the first one violated, so the message identifies the
violated field and constraint. -/
theorem validate_characterization_C7 (fs : String → Bool)
    (f : FirebaseConfig) (t : TradingConfig) (r : RLConfig) :
    (FirebaseConfig.validate fs f = .ok () ↔
      (f.project_id ≠ "" ∧ fs f.credential_path = true))
  ∧ (∀ e, FirebaseConfig.validate fs f = .error e →
      e = .valueError "Firebase project_id must be configured"
      ∨ e = .fileNotFound ("Firebase credentials not found at: " ++ f.credential_path))
  ∧ (FirebaseConfig.validate fs f =
        .error (.valueError "Firebase project_id must be configured") ↔
      f.project_id = "")
  ∧ (FirebaseConfig.validate fs f =
        .error (.fileNotFound ("Firebase credentials not found at: " ++ f.credential_path)) ↔
      (f.project_id ≠ "" ∧ fs f.credential_path = false))
  ∧ (TradingConfig.validate t = .ok () ↔
      (0 < t.initial_balance ∧ (0 ≤ t.max_position_size ∧ t.max_position_size ≤ 1)
        ∧ 0 ≤ t.transaction_cost))
  ∧ (∀ e, TradingConfig.validate t = .error e →
      e = .valueError "Initial balance must be positive"
      ∨ e = .valueError "Max position size must be between 0 and 1"
      ∨ e = .valueError "Transaction cost cannot be negative")
  ∧ (TradingConfig.validate t = .error (.valueError "Initial balance must be positive") ↔
      t.initial_balance ≤ 0)
  ∧ (TradingConfig.validate t =
        .error (.valueError "Max position size must be between 0 and 1") ↔
      (0 < t.initial_balance ∧ ¬ (0 ≤ t.max_position_size ∧ t.max_position_size ≤ 1)))
  ∧ (TradingConfig.validate t =
        .error (.valueError "Transaction cost cannot be negative") ↔
      (0 < t.initial_balance ∧ (0 ≤ t.max_position_size ∧ t.max_position_size ≤ 1)
        ∧ t.transaction_cost < 0))
  ∧ (RLConfig.validate r = .ok () ↔
      ((0 ≤ r.gamma ∧ r.gamma ≤ 1) ∧ 0 < r.learning_rate ∧ 0 < r.buffer_size))
  ∧ (∀ e, RLConfig.validate r = .error e →
      e = .valueError "Gamma must be between 0 and 1"
      ∨ e = .valueError "Learning rate must be positive"
      ∨ e = .valueError "Buffer size must be positive")
  ∧ (RLConfig.validate r = .error (.valueError "Gamma must be between 0 and 1") ↔
      ¬ (0 ≤ r.gamma ∧ r.gamma ≤ 1))
  ∧ (RLConfig.validate r = .error (.valueError "Learning rate must be positive") ↔
      ((0 ≤ r.gamma ∧ r.gamma ≤ 1) ∧ r.learning_rate ≤ 0))
  ∧ (RLConfig.validate r = .error (.valueError "Buffer size must be positive") ↔
      ((0 ≤ r.gamma ∧ r.gamma ≤ 1) ∧ 0 < r.learning_rate ∧ r.buffer_size ≤ 0)) := by
  refine ⟨?_, ?_, ?_, ?_, ?_, ?_, ?_, ?_, ?_, ?_, ?_, ?_, ?_, ?_⟩
  · unfold FirebaseConfig.validate
    split
    next h1 =>
      exact iff_of_false (fun hcon => Except.noConfusion hcon) (fun hr => hr.1 h1)
    next h1 =>
      split
      next h2 =>
        exact iff_of_false (fun hcon => Except.noConfusion hcon)
          (fun hr => absurd (h2.symm.trans hr.2) (by decide))
      next h2 =>
        exact iff_of_true rfl ⟨h1, by simpa using h2⟩
  · intro e he
    unfold FirebaseConfig.validate at he
    split at he
    · simp_all
    · split at he <;> simp_all
  · unfold FirebaseConfig.validate
    split
    next h1 => simp [h1]
    next h1 =>
      split
      next h2 => simp [h1]
      next h2 => simp [h1]
  · unfold FirebaseConfig.validate
    split
    next h1 => simp [h1]
    next h1 =>
      split
      next h2 => simp [h1, h2]
      next h2 => simp [h2]
  · unfold TradingConfig.validate
    split
    next h1 =>
      exact iff_of_false (fun hcon => Except.noConfusion hcon)
        (fun hr => absurd h1 (not_le.mpr hr.1))
    next h1 =>
      split
      next h2 =>
        exact iff_of_false (fun hcon => Except.noConfusion hcon) (fun hr => h2 hr.2.1)
      next h2 =>
        split
        next h3 =>
          exact iff_of_false (fun hcon => Except.noConfusion hcon)
            (fun hr => absurd h3 (not_lt.mpr hr.2.2))
        next h3 =>
          exact iff_of_true rfl ⟨not_le.mp h1, not_not.mp h2, not_lt.mp h3⟩
  · intro e he
    unfold TradingConfig.validate at he
    split at he
    · simp_all
    · split at he
      · simp_all
      · split at he <;> simp_all
  · unfold TradingConfig.validate
    split
    next h1 => simp [h1]
    next h1 =>
      split
      next h2 => simp [h1]
      next h2 =>
        split
        next h3 => simp [h1]
        next h3 => simp [h1]
  · unfold TradingConfig.validate
    split
    next h1 => simp [not_lt.mpr h1]
    next h1 =>
      split
      next h2 => simp [not_le.mp h1, h2]
      next h2 =>
        split
        next h3 => simp [not_not.mp h2]
        next h3 => simp [not_not.mp h2]
  · unfold TradingConfig.validate
    split
    next h1 => simp [not_lt.mpr h1]
    next h1 =>
      split
      next h2 => simp [h2]
      next h2 =>
        split
        next h3 => simp [not_le.mp h1, not_not.mp h2, h3]
        next h3 => simp [h3]
  · unfold RLConfig.validate
    split
    next h1 =>
      exact iff_of_false (fun hcon => Except.noConfusion hcon) (fun hr => h1 hr.1)
    next h1 =>
      split
      next h2 =>
        exact iff_of_false (fun hcon => Except.noConfusion hcon)
          (fun hr => absurd h2 (not_le.mpr hr.2.1))
      next h2 =>
        split
        next h3 =>
          exact iff_of_false (fun hcon => Except.noConfusion hcon)
            (fun hr => absurd h3 (not_le.mpr hr.2.2))
        next h3 =>
          exact iff_of_true rfl ⟨not_not.mp h1, not_le.mp h2, not_le.mp h3⟩
  · intro e he
    unfold RLConfig.validate at he
    split at he
    · simp_all
    · split at he
      · simp_all
      · split at he <;> simp_all
  · unfold RLConfig.validate
    split
    next h1 => simp [h1]
    next h1 =>
      split
      next h2 => simp [not_not.mp h1]
      next h2 =>
        split
        next h3 => simp [not_not.mp h1]
        next h3 => simp [not_not.mp h1]
  · unfold RLConfig.validate
    split
    next h1 => simp [h1]
    next h1 =>
      split
      next h2 => simp [not_not.mp h1, h2]
      next h2 =>
        split
        next h3 => simp [h2]
        next h3 => simp [h2]
  · unfold RLConfig.validate
    split
    next h1 => simp [h1]
    next h1 =>
      split
      next h2 => simp [not_lt.mpr h2]
      next h2 =>
        split
        next h3 => simp [not_not.mp h1, not_le.mp h2, h3]
        next h3 => simp [h3]

/-- Concrete instantiation of `validate_characterization_C7`: the default
`TradingConfig` satisfies every checked constraint, so validation succeeds. -/
theorem validate_characterization_C7_witness :
    TradingConfig.validate (mkTradingConfig emptyEnv) = .ok () :=
  ((validate_characterization_C7 (fun _ => true) (mkFirebaseConfig emptyEnv)
      (mkTradingConfig emptyEnv) (mkRLConfig emptyEnv)).2.2.2.2.1).mpr
    (by norm_num [mkTradingConfig])

/-- C8: in the state-passing form of every `validate`, the configuration
coming out is the configuration that went in, on every exit path — success
or raised error: validation never writes a field. -/
theorem validate_readonly_C8 (fs : String → Bool) (f : FirebaseConfig)
    (t : TradingConfig) (r : RLConfig) :
    (FirebaseConfig.validateSt fs f).2 = f
  ∧ (TradingConfig.validateSt t).2 = t
  ∧ (RLConfig.validateSt r).2 = r := by
  refine ⟨?_, ?_, ?_⟩
  · unfold FirebaseConfig.validateSt
    split
    · rfl
    · split <;> rfl
  · unfold TradingConfig.validateSt
    split
    · rfl
    · split
      · rfl
      · split <;> rfl
  · unfold RLConfig.validateSt
    split
    · rfl
    · split
      · rfl
      · split <;> rfl

/-- C9: `TradingConfig.validate` never reads the four risk fields; it
succeeds whenever the three checked constraints hold, whatever
`risk_free_rate`, `max_drawdown`, `stop_loss_pct`, `take_profit_pct` are. -/
theorem risk_fields_unchecked_C9 (t : TradingConfig)
    (h1 : 0 < t.initial_balance)
    (h2 : 0 ≤ t.max_position_size) (h3 : t.max_position_size ≤ 1)
    (h4 : 0 ≤ t.transaction_cost) :
    TradingConfig.validate t = .ok () := by
  unfold TradingConfig.validate
  rw [if_neg (not_le.mpr h1), if_neg (not_not_intro ⟨h2, h3⟩), if_neg (not_lt.mpr h4)]

/-- Concrete instantiation of `risk_fields_unchecked_C9`: all four risk
fields far outside [0, 1], yet validation succeeds. -/
theorem risk_fields_unchecked_C9_witness :
    TradingConfig.validate
      { risk_free_rate := -5, max_drawdown := 7, stop_loss_pct := -1, take_profit_pct := 100 }
      = .ok () :=
  risk_fields_unchecked_C9 _ (by norm_num) (by norm_num) (by norm_num) (by norm_num)

/-- C10: on a `FirebaseConfig` with empty `project_id` and a non-existent
credential path, `validate` raises the `ValueError` about `project_id`:
the `project_id` check precedes the path-existence check. -/
theorem project_id_checked_first_C10 (fs : String → Bool) (c : FirebaseConfig)
    (h1 : c.project_id = "") (_h2 : fs c.credential_path = false) :
    FirebaseConfig.validate fs c =
      .error (.valueError "Firebase project_id must be configured") := by
  unfold FirebaseConfig.validate
  rw [if_pos h1]

/-- Concrete instantiation of `project_id_checked_first_C10`. -/
theorem project_id_checked_first_C10_witness :
    FirebaseConfig.validate (fun _ => false)
      { project_id := "", credential_path := "./missing.json", database_url := "",
        collection_prefix := "arl_net_" }
      = .error (.valueError "Firebase project_id must be configured") :=
  project_id_checked_first_C10 (fun _ => false) _ rfl rfl


/-- Concrete instantiation of `validate_readonly_C8` at an out-of-range
config: even a failing validation leaves the state unchanged. -/
theorem validate_readonly_C8_witness :
    (TradingConfig.validateSt { initial_balance := -3 }).2 =
      ({ initial_balance := -3 } : TradingConfig) :=
  (validate_readonly_C8 (fun _ => true) (mkFirebaseConfig emptyEnv)
      { initial_balance := -3 } (mkRLConfig emptyEnv)).2.1
